import Mathlib

/-!
Shallow embedding of the contact-form component (`src/sections/Contact/Contact.tsx`)
and the contacts admin page of the portfolio front-end.  React state updates are
modelled as explicit state passing; the outcome of a `fetch` call is an explicit
input to the submit/fetch step functions.
-/

/-- The draft held in the `formData` state (`interface ContactForm`). -/
structure ContactForm where
  name : String
  email : String
  message : String
  deriving DecidableEq, Repr

/-- The field-error map `{ [key: string]: string }` held in the `errors` state.
The component only ever tests entries for truthiness (`if (errors[name])`,
`!!errors.name`), so the empty string models an absent/cleared entry. -/
structure Errs where
  name : String
  email : String
  message : String
  deriving DecidableEq, Repr

/-- `interface ApiResponse { success; message; errors? }`. -/
structure ApiResponse where
  success : Bool
  message : String
  errors : Option Errs
  deriving DecidableEq, Repr

/-- `\S` of the source regex: any non-whitespace character. -/
def nonWS (c : Char) : Bool := !c.isWhitespace

/-- After the `@`, the regex `\S+@\S+\.\S+` still needs, beyond the first
non-whitespace character, a run of non-whitespace characters ending at a literal
dot that is followed by a non-whitespace character. -/
def emailDotSeek : List Char → Bool
  | c :: d :: rest => (c == '.' && nonWS d) || (nonWS c && emailDotSeek (d :: rest))
  | _ => false

/-- The part of the regex after the `@`: `\S+\.\S+` (one non-whitespace character,
then `emailDotSeek`). -/
def emailAfterAt : List Char → Bool
  | c :: rest => nonWS c && emailDotSeek rest
  | [] => false

/-- Search for a position with a non-whitespace character immediately followed by
`@` and then a match of `\S+\.\S+`. -/
def emailScan : List Char → Bool
  | c :: d :: rest => (nonWS c && d == '@' && emailAfterAt rest) || emailScan (d :: rest)
  | _ => false

/-- The source's email check `/\S+@\S+\.\S+/.test(email)`: the regex is unanchored,
so the test passes exactly when the string contains a substring matching
`\S+@\S+\.\S+`. -/
def emailRegexTest (s : String) : Bool := emailScan s.data

/-- JS `s.trim()`: strip leading and trailing whitespace, written over the
character list so that it computes by kernel reduction. -/
def jsTrim (s : String) : String :=
  ⟨((s.data.dropWhile Char.isWhitespace).reverse.dropWhile Char.isWhitespace).reverse⟩

/-- JS truthiness test `!s || !s.trim()` used by `validateForm`: the string is
empty or whitespace-only. -/
def jsBlank (s : String) : Bool := s == "" || jsTrim s == ""

/-- `validateForm` from `Contact.tsx` (the error map it builds and stores with
`setErrors`); an empty string stands for a key it does not add. -/
def validateForm (f : ContactForm) : Errs :=
  { name := if jsBlank f.name then "Name is required" else ""
    email :=
      if jsBlank f.email then "Email is required"
      else if !emailRegexTest f.email then "Please enter a valid email"
      else ""
    message := if jsBlank f.message then "Message is required" else "" }

/-- `Object.keys(newErrors).length === 0`: with the empty-string encoding, all
three entries are empty. -/
def errsEmpty (e : Errs) : Bool := e.name == "" && e.email == "" && e.message == ""

/-- Contiguous-sublist search over character lists (the core of JS
`String.prototype.includes`). -/
def listContains (pat : List Char) : List Char → Bool
  | [] => pat.isEmpty
  | c :: rest => pat.isPrefixOf (c :: rest) || listContains pat rest

/-- JS `s.includes(pat)`. -/
def strIncludes (s pat : String) : Bool := listContains pat.data s.data

/-- A thrown JS value as seen by a `catch` block: whether it is an `Error`
instance, and its `name` and `message` properties. -/
structure JsError where
  isErrorInstance : Bool
  name : String
  message : String
  deriving DecidableEq, Repr

/-- Outcome of the `fetch` in `submitToApi`: either the promise resolved with a
status and a body (readable as text, and as JSON when parsing succeeds), or it
rejected with a thrown value (network failure, or the abort triggered by the
15-second timer, which surfaces as an `Error` named `AbortError`). -/
inductive FetchOutcome where
  | resolved (status : Nat) (bodyText : String) (json : Except JsError ApiResponse)
  | rejected (err : JsError)

/-- The component state of `Contact`: `formData`, `isSubmitting`, `response`,
`errors`. -/
structure ComponentState where
  formData : ContactForm
  isSubmitting : Bool
  response : Option ApiResponse
  errors : Errs
  deriving DecidableEq, Repr

/-- The `catch` block of `submitToApi`: the synthesized `ApiResponse`.  The
`AbortError` name is checked first, then `error.message.includes('CORS')`, then
the message of any other `Error` instance is used verbatim; the initial
"Network error" default survives only for non-`Error` thrown values. -/
def catchResponse (e : JsError) : ApiResponse :=
  { success := false
    message :=
      if e.isErrorInstance then
        if e.name == "AbortError" then "Request timed out. Please try again."
        else if strIncludes e.message "CORS" then "Connection blocked. Please try again later."
        else e.message
      else "Network error. Please check your connection and try again."
    errors := none }

/-- `submitToApi` from `Contact.tsx`, as a state transformer given the fetch
outcome.  `response.ok` is a 2xx status; a non-ok response throws
`new Error('HTTP <status>: <body text>')` into the same catch block. -/
def submitToApi (st : ComponentState) (net : FetchOutcome) : ComponentState :=
  match net with
  | .resolved status bodyText json =>
      if 200 ≤ status ∧ status ≤ 299 then
        match json with
        | .ok data =>
            if data.success then
              { st with response := some data, formData := ⟨"", "", ""⟩ }
            else
              { st with response := some data,
                        errors := data.errors.getD st.errors }
        | .error e => { st with response := some (catchResponse e) }
      else
        let e : JsError := ⟨true, "Error", "HTTP " ++ toString status ++ ": " ++ bodyText⟩
        { st with response := some (catchResponse e) }
  | .rejected e => { st with response := some (catchResponse e) }

/-- The shared body of `handleSubmit` and `handleButtonClick` after the guard:
validate (storing the new error map), and when valid set `isSubmitting`, clear
`response` and `errors`, await `submitToApi`, then clear `isSubmitting`.  The
boolean records whether the HTTP request was issued. -/
def submitFlow (st : ComponentState) (net : FetchOutcome) : ComponentState × Bool :=
  let errs := validateForm st.formData
  if errsEmpty errs then
    let st1 : ComponentState :=
      { st with isSubmitting := true, response := none, errors := ⟨"", "", ""⟩ }
    ({ submitToApi st1 net with isSubmitting := false }, true)
  else
    ({ st with errors := errs }, false)

/-- `handleSubmit` (the form's `onSubmit` handler): validate and submit.  It has
no `isSubmitting` check. -/
def handleSubmit (st : ComponentState) (net : FetchOutcome) : ComponentState × Bool :=
  submitFlow st net

/-- `handleButtonClick` (the submit button's `onClick` handler): returns
immediately when `isSubmitting` is set, otherwise runs the same flow. -/
def handleButtonClick (st : ComponentState) (net : FetchOutcome) : ComponentState × Bool :=
  if st.isSubmitting then (st, false) else submitFlow st net

/-- The three draft fields, for `e.target.name` in `handleInputChange`. -/
inductive FormField where
  | name
  | email
  | message
  deriving DecidableEq, Repr

/-- Update one draft field (`setFormData(prev => ({ ...prev, [name]: value }))`). -/
def ContactForm.setField (f : ContactForm) : FormField → String → ContactForm
  | .name, v => { f with name := v }
  | .email, v => { f with email := v }
  | .message, v => { f with message := v }

/-- Read one entry of the error map. -/
def Errs.get (e : Errs) : FormField → String
  | .name => e.name
  | .email => e.email
  | .message => e.message

/-- Overwrite one entry of the error map
(`setErrors(prev => ({ ...prev, [name]: '' }))`). -/
def Errs.set (e : Errs) : FormField → String → Errs
  | .name, v => { e with name := v }
  | .email, v => { e with email := v }
  | .message, v => { e with message := v }

/-- `handleInputChange`: store the new value; when the edited field has a truthy
error, blank it; when a response is shown, clear it. -/
def handleInputChange (st : ComponentState) (fld : FormField) (v : String) : ComponentState :=
  let fd := st.formData.setField fld v
  let errs := if st.errors.get fld != "" then st.errors.set fld "" else st.errors
  let resp := if st.response.isSome then none else st.response
  { st with formData := fd, errors := errs, response := resp }

/-- `interface Contact` of the admin page. -/
structure Contact where
  id : Nat
  name : String
  email : String
  message : String
  createdAt : String
  deriving DecidableEq, Repr

/-- JS `s.toLowerCase()`, written over the character list so that it computes by
kernel reduction. -/
def jsToLower (s : String) : String := ⟨s.data.map Char.toLower⟩

/-- The predicate of the filter effect: the lowercased search term occurs in the
lowercased `name`, `email` or `message`. -/
def contactMatches (searchTerm : String) (c : Contact) : Bool :=
  strIncludes (jsToLower c.name) (jsToLower searchTerm) ||
  strIncludes (jsToLower c.email) (jsToLower searchTerm) ||
  strIncludes (jsToLower c.message) (jsToLower searchTerm)

/-- The filter effect of `ContactsAdminPage`:
`contacts.filter(contact => ...includes(searchTerm.toLowerCase()))`. -/
def filterContacts (contacts : List Contact) (searchTerm : String) : List Contact :=
  contacts.filter (contactMatches searchTerm)

/-- The state of `ContactsAdminPage` touched by `fetchContacts`. -/
structure AdminState where
  contacts : List Contact
  loading : Bool
  error : Option String
  deriving DecidableEq, Repr

/-- Outcome of the `fetch` in `fetchContacts`. -/
inductive FetchListOutcome where
  | resolved (status : Nat) (json : Except JsError (List Contact))
  | rejected (err : JsError)

/-- The `catch` of `fetchContacts`:
`err instanceof Error ? err.message : 'An error occurred'`. -/
def fetchCatch (e : JsError) : String :=
  if e.isErrorInstance then e.message else "An error occurred"

/-- `fetchContacts` from `ContactsAdminPage`: set `loading`, fetch; a non-ok
status throws `new Error('Failed to fetch contacts')`; on success replace the
list and clear the error; `finally` clears `loading`. -/
def fetchContacts (st : AdminState) (net : FetchListOutcome) : AdminState :=
  let st0 := { st with loading := true }
  let st1 :=
    match net with
    | .resolved status json =>
        if 200 ≤ status ∧ status ≤ 299 then
          match json with
          | .ok data => { st0 with contacts := data, error := none }
          | .error e => { st0 with error := some (fetchCatch e) }
        else
          { st0 with error := some (fetchCatch ⟨true, "Error", "Failed to fetch contacts"⟩) }
    | .rejected e => { st0 with error := some (fetchCatch e) }
  { st1 with loading := false }

/-- A concrete component state holding a valid draft, for concrete
instantiations. -/
def demoState : ComponentState := ⟨⟨"Ann", "a@b.co", "hi"⟩, false, none, ⟨"", "", ""⟩⟩

/-- A concrete component state after a failed submission: a result banner is
shown and all three fields carry errors. -/
def shownState : ComponentState :=
  ⟨⟨"", "x", ""⟩, false, some ⟨false, "fail", none⟩,
    ⟨"Name is required", "Please enter a valid email", "Message is required"⟩⟩

/-- Searching for the empty pattern always succeeds (JS `s.includes('')`). -/
theorem listContains_nil (l : List Char) : listContains [] l = true := by
  induction l with
  | nil => rfl
  | cons c rest ih => simp [listContains, List.isPrefixOf]

/-- C1: `validateForm` flags exactly the invalid fields with the specified
messages (blank meaning empty or whitespace-only; the email pattern being the
source's unanchored regex test, which accepts exactly the strings containing a
substring of shape non-whitespace, `@`, non-whitespace, `.`, non-whitespace);
the error map is empty exactly when the draft is fully valid; and the submit
flow issues the HTTP request exactly when the error map of the current draft is
empty. -/
theorem validateForm_exact (f : ContactForm) (st : ComponentState) (net : FetchOutcome) :
    ((validateForm f).name = if jsBlank f.name then "Name is required" else "")
    ∧ ((validateForm f).email =
        if jsBlank f.email then "Email is required"
        else if !emailRegexTest f.email then "Please enter a valid email" else "")
    ∧ ((validateForm f).message = if jsBlank f.message then "Message is required" else "")
    ∧ (errsEmpty (validateForm f) = true ↔
        jsBlank f.name = false ∧ jsBlank f.email = false
          ∧ emailRegexTest f.email = true ∧ jsBlank f.message = false)
    ∧ (handleSubmit st net).2 = errsEmpty (validateForm st.formData) := by
  refine ⟨rfl, rfl, rfl, ?_, ?_⟩
  · cases hn : jsBlank f.name <;> cases he : jsBlank f.email <;>
      cases hm : jsBlank f.message <;> cases ht : emailRegexTest f.email <;>
      simp [validateForm, errsEmpty, hn, he, hm, ht]
  · cases hg : errsEmpty (validateForm st.formData) <;>
      simp [handleSubmit, submitFlow, hg]

/-- C2: a 2xx response whose JSON body has `success: true` is stored as the
shown result (the banner shows success) and the draft is reset to empty
fields. -/
theorem submitSuccess_resets (st : ComponentState) (status : Nat) (body : String)
    (data : ApiResponse) (hval : errsEmpty (validateForm st.formData) = true)
    (hlo : 200 ≤ status) (hhi : status ≤ 299) (hs : data.success = true) :
    (handleSubmit st (.resolved status body (.ok data))).1.response = some data
    ∧ (handleSubmit st (.resolved status body (.ok data))).1.formData = ⟨"", "", ""⟩ := by
  simp [handleSubmit, submitFlow, hval, submitToApi, hs, hlo, hhi]

/-- Witness for C2: a concrete valid draft and a 200 response with
`success: true`. -/
theorem submitSuccess_resets_witness :
    (handleSubmit ⟨⟨"Ann", "a@b.co", "hi"⟩, false, none, ⟨"", "", ""⟩⟩
        (.resolved 200 "" (.ok ⟨true, "Message sent", none⟩))).1.response
      = some ⟨true, "Message sent", none⟩
    ∧ (handleSubmit ⟨⟨"Ann", "a@b.co", "hi"⟩, false, none, ⟨"", "", ""⟩⟩
        (.resolved 200 "" (.ok ⟨true, "Message sent", none⟩))).1.formData
      = ⟨"", "", ""⟩ :=
  submitSuccess_resets ⟨⟨"Ann", "a@b.co", "hi"⟩, false, none, ⟨"", "", ""⟩⟩ 200 ""
    ⟨true, "Message sent", none⟩ (by decide) (by decide) (by decide) rfl

/-- C7: the admin filter returns exactly the contacts whose name, email or
message contains the search term as a case-insensitive substring; the empty
term returns the whole list; the output is a sublist of the input, so the
source ordering is preserved (the model is a pure function, as is the source's
`Array.prototype.filter`, which never mutates the source list). -/
theorem filterContacts_exact (l : List Contact) (t : String) :
    (∀ c : Contact, c ∈ filterContacts l t ↔ c ∈ l ∧ contactMatches t c = true)
    ∧ filterContacts l "" = l
    ∧ (filterContacts l t).Sublist l := by
  refine ⟨fun c => List.mem_filter, ?_, List.filter_sublist l⟩
  apply List.filter_eq_self.mpr
  intro c _
  simp [contactMatches, strIncludes, jsToLower, listContains_nil]

/-- C3 counterexample: a 500 response whose body text contains "CORS" does not
produce the message "HTTP 500: <body>" — the thrown `HTTP ...` error reaches
the CORS branch of the catch block instead. -/
theorem httpError_counterexample :
    (handleSubmit demoState
        (.resolved 500 "CORS misconfigured" (.error ⟨true, "Error", ""⟩))).1.response
      = some ⟨false, "Connection blocked. Please try again later.", none⟩
    ∧ (handleSubmit demoState
        (.resolved 500 "CORS misconfigured" (.error ⟨true, "Error", ""⟩))).1.response
      ≠ some ⟨false, "HTTP 500: CORS misconfigured", none⟩ := by
  decide

/-- C3 (amended): on a non-2xx status whose synthesized message
`HTTP <status>: <body text>` does not contain "CORS", the shown result is
`{success: false, message: "HTTP <status>: <body text>"}` and the draft is left
unchanged (not reset). -/
theorem httpError_message (st : ComponentState) (status : Nat) (body : String)
    (json : Except JsError ApiResponse)
    (hval : errsEmpty (validateForm st.formData) = true)
    (hnok : ¬(200 ≤ status ∧ status ≤ 299))
    (hcors : strIncludes ("HTTP " ++ toString status ++ ": " ++ body) "CORS" = false) :
    (handleSubmit st (.resolved status body json)).1.response
      = some ⟨false, "HTTP " ++ toString status ++ ": " ++ body, none⟩
    ∧ (handleSubmit st (.resolved status body json)).1.formData = st.formData := by
  simp [handleSubmit, submitFlow, hval, submitToApi, hnok, catchResponse, hcors]

/-- Witness for C3 (amended): a concrete 500 response with a plain body. -/
theorem httpError_message_witness :
    (handleSubmit demoState
        (.resolved 500 "Internal Server Error" (.error ⟨true, "Error", ""⟩))).1.response
      = some ⟨false, "HTTP 500: Internal Server Error", none⟩
    ∧ (handleSubmit demoState
        (.resolved 500 "Internal Server Error" (.error ⟨true, "Error", ""⟩))).1.formData
      = demoState.formData :=
  httpError_message demoState 500 "Internal Server Error" (.error ⟨true, "Error", ""⟩)
    (by decide) (by decide) (by decide)

/-- C4 counterexample: a genuine network failure rejects the fetch with a
`TypeError` such as "Failed to fetch", which is an `Error` instance, so the
catch block uses its message verbatim — the claimed "Network error. Please
check your connection and try again." does not appear. -/
theorem networkError_counterexample :
    (handleSubmit demoState (.rejected ⟨true, "TypeError", "Failed to fetch"⟩)).1.response
      = some ⟨false, "Failed to fetch", none⟩
    ∧ (handleSubmit demoState (.rejected ⟨true, "TypeError", "Failed to fetch"⟩)).1.response
      ≠ some ⟨false, "Network error. Please check your connection and try again.", none⟩ := by
  decide

/-- C4 (amended): for a rejected request, the result is `{success: false,
message: m}` where `m` is the thrown error's own message when the thrown value
is an `Error` instance (not named `AbortError`, message not containing "CORS");
the spec's "Network error. Please check your connection and try again." is
produced exactly when the thrown value is not an `Error` instance. -/
theorem networkError_message (st : ComponentState) (err : JsError)
    (hval : errsEmpty (validateForm st.formData) = true) :
    (err.isErrorInstance = true → (err.name == "AbortError") = false →
      strIncludes err.message "CORS" = false →
      (handleSubmit st (.rejected err)).1.response = some ⟨false, err.message, none⟩)
    ∧ (err.isErrorInstance = false →
      (handleSubmit st (.rejected err)).1.response
        = some ⟨false, "Network error. Please check your connection and try again.", none⟩) := by
  constructor
  · intro h1 h2 h3
    simp [handleSubmit, submitFlow, hval, submitToApi, catchResponse, h1, h2, h3]
  · intro h1
    simp [handleSubmit, submitFlow, hval, submitToApi, catchResponse, h1]

/-- Witness for C4 (amended): a concrete `TypeError` rejection and a concrete
non-`Error` rejection. -/
theorem networkError_message_witness :
    (handleSubmit demoState
        (.rejected ⟨true, "TypeError", "NetworkError when attempting to fetch resource."⟩)).1.response
      = some ⟨false, "NetworkError when attempting to fetch resource.", none⟩
    ∧ (handleSubmit demoState (.rejected ⟨false, "", "offline"⟩)).1.response
      = some ⟨false, "Network error. Please check your connection and try again.", none⟩ :=
  ⟨(networkError_message demoState
      ⟨true, "TypeError", "NetworkError when attempting to fetch resource."⟩
      (by decide)).1 rfl (by decide) (by decide),
   (networkError_message demoState ⟨false, "", "offline"⟩ (by decide)).2 rfl⟩

/-- C5: when the 15-second timer fires, `controller.abort()` cancels the
in-flight fetch, rejecting it with an `Error` named `AbortError`; the shown
result is then `{success: false, message: "Request timed out. Please try
again."}` and `isSubmitting` is back to `false`. -/
theorem timeout_message (st : ComponentState) (err : JsError)
    (hval : errsEmpty (validateForm st.formData) = true)
    (hinst : err.isErrorInstance = true) (hname : err.name = "AbortError") :
    (handleSubmit st (.rejected err)).1.response
      = some ⟨false, "Request timed out. Please try again.", none⟩
    ∧ (handleSubmit st (.rejected err)).1.isSubmitting = false := by
  simp [handleSubmit, submitFlow, hval, submitToApi, catchResponse, hinst, hname]

/-- Witness for C5: a concrete aborted request. -/
theorem timeout_message_witness :
    (handleSubmit demoState
        (.rejected ⟨true, "AbortError", "The user aborted a request."⟩)).1.response
      = some ⟨false, "Request timed out. Please try again.", none⟩
    ∧ (handleSubmit demoState
        (.rejected ⟨true, "AbortError", "The user aborted a request."⟩)).1.isSubmitting
      = false :=
  timeout_message demoState ⟨true, "AbortError", "The user aborted a request."⟩
    (by decide) rfl rfl

/-- C6 (amended): a click on the submit button while `isSubmitting` is true is
refused before validation: `handleButtonClick` leaves the state unchanged and
issues no request. The form's `onSubmit` handler `handleSubmit` has no such
guard (the UI relies on the button's `disabled` attribute instead). -/
theorem buttonClick_guarded (st : ComponentState) (net : FetchOutcome)
    (h : st.isSubmitting = true) :
    handleButtonClick st net = (st, false) := by
  simp [handleButtonClick, h]

/-- Witness for C6 (amended): a concrete click while submitting. -/
theorem buttonClick_guarded_witness :
    handleButtonClick ⟨⟨"Ann", "a@b.co", "hi"⟩, true, none, ⟨"", "", ""⟩⟩
        (.resolved 200 "" (.ok ⟨true, "ok", none⟩))
      = (⟨⟨"Ann", "a@b.co", "hi"⟩, true, none, ⟨"", "", ""⟩⟩, false) :=
  buttonClick_guarded ⟨⟨"Ann", "a@b.co", "hi"⟩, true, none, ⟨"", "", ""⟩⟩
    (.resolved 200 "" (.ok ⟨true, "ok", none⟩)) rfl

/-- C6 counterexample: `handleSubmit` (the form's `onSubmit` handler) has no
`isSubmitting` check — dispatched on a state with `isSubmitting = true` and a
valid draft, it issues the HTTP request and changes the state. -/
theorem submitWhileSubmitting_counterexample :
    (handleSubmit ⟨⟨"Ann", "a@b.co", "hi"⟩, true, none, ⟨"", "", ""⟩⟩
        (.resolved 200 "" (.ok ⟨true, "ok", none⟩))).2 = true
    ∧ (handleSubmit ⟨⟨"Ann", "a@b.co", "hi"⟩, true, none, ⟨"", "", ""⟩⟩
        (.resolved 200 "" (.ok ⟨true, "ok", none⟩))).1
      ≠ ⟨⟨"Ann", "a@b.co", "hi"⟩, true, none, ⟨"", "", ""⟩⟩ := by
  decide

/-- C8: `fetchContacts` on a non-2xx status sets the error state to "Failed to
fetch contacts" and leaves the held list unchanged; on a 2xx status with a
parsed body it replaces the list wholesale and clears any prior error. -/
theorem fetchContacts_exact :
    (∀ (st : AdminState) (status : Nat) (json : Except JsError (List Contact)),
        ¬(200 ≤ status ∧ status ≤ 299) →
          (fetchContacts st (.resolved status json)).error = some "Failed to fetch contacts"
          ∧ (fetchContacts st (.resolved status json)).contacts = st.contacts)
    ∧ (∀ (st : AdminState) (status : Nat) (data : List Contact),
        200 ≤ status → status ≤ 299 →
          (fetchContacts st (.resolved status (.ok data))).contacts = data
          ∧ (fetchContacts st (.resolved status (.ok data))).error = none) := by
  constructor
  · intro st status json hnok
    simp [fetchContacts, hnok, fetchCatch]
  · intro st status data hlo hhi
    simp [fetchContacts, hlo, hhi]

/-- Witness for C8: a concrete failed refresh keeping the old list, and a
concrete successful refresh replacing it and clearing the error. -/
theorem fetchContacts_exact_witness :
    (fetchContacts ⟨[⟨1, "Ann", "a@x.com", "hi", "2024-01-01"⟩], false, none⟩
        (.resolved 500 (.error ⟨true, "Error", ""⟩))).error
      = some "Failed to fetch contacts"
    ∧ (fetchContacts ⟨[⟨1, "Ann", "a@x.com", "hi", "2024-01-01"⟩], false, none⟩
        (.resolved 500 (.error ⟨true, "Error", ""⟩))).contacts
      = [⟨1, "Ann", "a@x.com", "hi", "2024-01-01"⟩]
    ∧ (fetchContacts ⟨[], false, some "Failed to fetch contacts"⟩
        (.resolved 200 (.ok [⟨2, "Bob", "b@x.com", "hey", "2024-01-02"⟩]))).contacts
      = [⟨2, "Bob", "b@x.com", "hey", "2024-01-02"⟩]
    ∧ (fetchContacts ⟨[], false, some "Failed to fetch contacts"⟩
        (.resolved 200 (.ok [⟨2, "Bob", "b@x.com", "hey", "2024-01-02"⟩]))).error
      = none :=
  ⟨(fetchContacts_exact.1 ⟨[⟨1, "Ann", "a@x.com", "hi", "2024-01-01"⟩], false, none⟩
      500 (.error ⟨true, "Error", ""⟩) (by decide)).1,
   (fetchContacts_exact.1 ⟨[⟨1, "Ann", "a@x.com", "hi", "2024-01-01"⟩], false, none⟩
      500 (.error ⟨true, "Error", ""⟩) (by decide)).2,
   (fetchContacts_exact.2 ⟨[], false, some "Failed to fetch contacts"⟩
      200 [⟨2, "Bob", "b@x.com", "hey", "2024-01-02"⟩] (by decide) (by decide)).1,
   (fetchContacts_exact.2 ⟨[], false, some "Failed to fetch contacts"⟩
      200 [⟨2, "Bob", "b@x.com", "hey", "2024-01-02"⟩] (by decide) (by decide)).2⟩

/-- C9: editing a field while a result is shown clears the shown result, blanks
the edited field's error entry, and leaves the other fields' error entries
unchanged. -/
theorem inputChange_clears (st : ComponentState) (fld : FormField) (v : String)
    (r : ApiResponse) (hshown : st.response = some r) :
    (handleInputChange st fld v).response = none
    ∧ (handleInputChange st fld v).errors.get fld = ""
    ∧ (∀ g : FormField, g ≠ fld →
        (handleInputChange st fld v).errors.get g = st.errors.get g) := by
  refine ⟨?_, ?_, ?_⟩
  · simp [handleInputChange, hshown]
  · cases h : (st.errors.get fld != "") <;>
      cases fld <;> simp_all [handleInputChange, Errs.get, Errs.set]
  · intro g hg
    cases h : (st.errors.get fld != "") <;>
      cases fld <;> cases g <;> simp_all [handleInputChange, Errs.get, Errs.set]

/-- Witness for C9: editing the email field of a state showing a failed result
with errors on all three fields. -/
theorem inputChange_clears_witness :
    (handleInputChange shownState .email "b@x.com").response = none
    ∧ (handleInputChange shownState .email "b@x.com").errors.get .email = ""
    ∧ (handleInputChange shownState .email "b@x.com").errors.get .name
      = shownState.errors.get .name :=
  ⟨(inputChange_clears shownState .email "b@x.com" ⟨false, "fail", none⟩ rfl).1,
   (inputChange_clears shownState .email "b@x.com" ⟨false, "fail", none⟩ rfl).2.1,
   (inputChange_clears shownState .email "b@x.com" ⟨false, "fail", none⟩ rfl).2.2
     .name (by decide)⟩

/-- C10 (amended): a caught `Error` whose name is not `AbortError` and whose
message contains "CORS" produces `{success: false, message: "Connection
blocked. Please try again later."}` — in particular a thrown non-2xx error
whose synthesized `HTTP <status>: <body>` message contains "CORS".  When the
error's name is `AbortError`, the timeout branch takes precedence. -/
theorem corsMessage (st : ComponentState)
    (hval : errsEmpty (validateForm st.formData) = true) :
    (∀ err : JsError, err.isErrorInstance = true → (err.name == "AbortError") = false →
        strIncludes err.message "CORS" = true →
        (handleSubmit st (.rejected err)).1.response
          = some ⟨false, "Connection blocked. Please try again later.", none⟩)
    ∧ (∀ (status : Nat) (body : String) (json : Except JsError ApiResponse),
        ¬(200 ≤ status ∧ status ≤ 299) →
        strIncludes ("HTTP " ++ toString status ++ ": " ++ body) "CORS" = true →
        (handleSubmit st (.resolved status body json)).1.response
          = some ⟨false, "Connection blocked. Please try again later.", none⟩) := by
  constructor
  · intro err h1 h2 h3
    simp [handleSubmit, submitFlow, hval, submitToApi, catchResponse, h1, h2, h3]
  · intro status body json hnok hc
    simp [handleSubmit, submitFlow, hval, submitToApi, catchResponse, hnok, hc]

/-- Witness for C10 (amended): a concrete CORS-mentioning `TypeError` and a
concrete 403 whose body mentions CORS. -/
theorem corsMessage_witness :
    (handleSubmit demoState
        (.rejected ⟨true, "TypeError", "CORS policy blocked the request"⟩)).1.response
      = some ⟨false, "Connection blocked. Please try again later.", none⟩
    ∧ (handleSubmit demoState
        (.resolved 403 "CORS preflight failed" (.error ⟨true, "Error", ""⟩))).1.response
      = some ⟨false, "Connection blocked. Please try again later.", none⟩ :=
  ⟨(corsMessage demoState (by decide)).1
      ⟨true, "TypeError", "CORS policy blocked the request"⟩ rfl (by decide) (by decide),
   (corsMessage demoState (by decide)).2 403 "CORS preflight failed"
      (.error ⟨true, "Error", ""⟩) (by decide) (by decide)⟩

/-- C10 counterexample: the `AbortError` name is checked before the CORS
substring, so an aborted request whose message mentions "CORS" yields the
timeout message, not "Connection blocked. Please try again later.". -/
theorem corsMessage_counterexample :
    (handleSubmit demoState
        (.rejected ⟨true, "AbortError", "CORS request aborted"⟩)).1.response
      = some ⟨false, "Request timed out. Please try again.", none⟩
    ∧ (handleSubmit demoState
        (.rejected ⟨true, "AbortError", "CORS request aborted"⟩)).1.response
      ≠ some ⟨false, "Connection blocked. Please try again later.", none⟩ := by
  decide

